import Mathlib

/-!
Verification of the HomeStay reservation backend (booking allocation,
occupancy accounting, pricing, validation and lifecycle).

Calendar dates are modelled as integer day numbers (days since an arbitrary
epoch, each date at midnight UTC as in the source).  Instants (used by the
pricing service and the cancellation cutoff) are modelled as integer
milliseconds.  JavaScript numeric amounts are modelled as rationals where
fractional arithmetic occurs (pricing) and as integers elsewhere.
-/

namespace HomeStay

/-- Milliseconds per day, the constant 1000*60*60*24 from the source. -/
def msPerDay : Int := 86400000

/-- Reservation status, per the Booking schema: pending, confirmed, cancelled. -/
inductive BookingStatus where
  | pending
  | confirmed
  | cancelled
deriving DecidableEq, Repr

/-- A persisted reservation.  `checkIn` and `checkOut` are calendar day
numbers; the window of occupied nights is `[checkIn, checkOut)`.
`numberOfRooms` is optional because legacy bookings (first controller
variant) lack the field; occupancy accounting reads it as
`booking.numberOfRooms || 1`. -/
structure Booking where
  id : Nat := 0
  room : Nat := 0
  checkIn : Int := 0
  checkOut : Int := 0
  guests : Nat := 1
  children : Nat := 0
  numberOfRooms : Option Nat := none
  guestName : String := ""
  guestEmail : String := ""
  guestPhone : String := ""
  nights : Int := 0
  pricePerNight : Int := 0
  totalPrice : Int := 0
  taxAmount : Int := 0
  discountAmount : Int := 0
  status : BookingStatus := .confirmed
  specialRequests : Option String := none
  cancelledAt : Option Int := none
  cancelledBy : Option Nat := none
  cancellationReason : Option String := none
deriving DecidableEq, Repr

/-- A room type from the catalog: identity, display name, nightly rate,
guest capacity, physical room count, availability flag. -/
structure Room where
  id : Nat
  name : String
  price : Rat
  capacity : Nat
  totalRooms : Nat
  isAvailable : Bool
deriving DecidableEq, Repr

/-- `status ∈ {pending, confirmed}`: the statuses that count toward
occupancy (the `status: { $in: ['pending','confirmed'] }` query filter). -/
def statusActive : BookingStatus → Bool
  | .pending => true
  | .confirmed => true
  | .cancelled => false

/-- Rooms a booking occupies: `booking.numberOfRooms || 1` (JS: an absent
or zero field counts as 1). -/
def roomsBooked (b : Booking) : Nat :=
  match b.numberOfRooms with
  | none => 1
  | some n => if n = 0 then 1 else n

/-- Does booking `b` occupy calendar day `d`?  The day loop
`for (currentDate = checkIn; currentDate < checkOut; ++day)` marks exactly
the days with `checkIn ≤ d < checkOut`. -/
def coversB (b : Booking) (d : Int) : Bool :=
  decide (b.checkIn ≤ d) && decide (d < b.checkOut)

/-- Bookings of room `rid` whose status counts toward occupancy. -/
def activeFor (rid : Nat) (s : List Booking) : List Booking :=
  s.filter (fun b => b.room == rid && statusActive b.status)

/-- The reservation fetch of the admission path: bookings of the room with
status pending/confirmed whose window overlaps the requested `[lo, hi)`
(`checkIn: { $lt: hi }, checkOut: { $gt: lo }`). -/
def fetchOverlapping (s : List Booking) (rid : Nat) (lo hi : Int) : List Booking :=
  s.filter (fun b =>
    b.room == rid && statusActive b.status &&
    decide (b.checkIn < hi) && decide (b.checkOut > lo))

/-- The list of calendar days a booking occupies (the days its day loop visits). -/
def daysOf (b : Booking) : List Int :=
  (List.range (b.checkOut - b.checkIn).toNat).map (fun k : Nat => b.checkIn + (k : Int))

/-- All days visited by the per-booking day loops (the key set of the
`bookingsPerDate` map, with multiplicity). -/
def allDays (l : List Booking) : List Int :=
  l.flatMap daysOf

/-- Total rooms occupied by bookings of `l` on day `d` (the value the
`bookingsPerDate` map accumulates at key `d`). -/
def sumRoomsOn (l : List Booking) (d : Int) : Nat :=
  l.foldr (fun b acc => if coversB b d then roomsBooked b + acc else acc) 0

/-- Maximum of `f` over a list of days, 0 on the empty list (mirrors
`Math.max(...values)` over a possibly empty map, which the source guards
to 0). -/
def listMaxBy (l : List Int) (f : Int → Nat) : Nat :=
  l.foldr (fun d acc => max (f d) acc) 0

/-- The source's `maxBookedRooms`: the maximum value of the
`bookingsPerDate` map, i.e. the maximum over every day any fetched booking
occupies (clipping to the requested window is NOT performed). -/
def peakOccupancy (l : List Booking) : Nat :=
  listMaxBy (allDays l) (sumRoomsOn l)

/-- The days of the requested window `[lo, hi)`. -/
def windowDays (lo hi : Int) : List Int :=
  (List.range (hi - lo).toNat).map (fun k : Nat => lo + (k : Int))

/-- Peak occupancy as the specification words it: the per-day counter is
only built for days of `[reservation.checkIn, reservation.checkOut)` that
also fall inside the requested `[lo, hi)`, and the peak is the maximum
over days of the requested window. -/
def specPeakOccupancy (l : List Booking) (lo hi : Int) : Nat :=
  listMaxBy (windowDays lo hi) (sumRoomsOn l)

/-- `availableRooms = room.totalRooms - maxBookedRooms` of the admission path. -/
def availableRoomsFor (s : List Booking) (rid : Nat) (lo hi : Int) (total : Nat) : Int :=
  (total : Int) - (peakOccupancy (fetchOverlapping s rid lo hi) : Int)

/-! ## Pricing service -/

/-- Ceiling division of integers (`Math.ceil(a / b)` for positive `b`). -/
def ceilDivInt (a b : Int) : Int :=
  -((-a).fdiv b)

/-- `BookingPricingService.calculateNights`: ceiling of the elapsed
milliseconds divided by one day.  Arguments are instants in ms. -/
def calculateNights (checkInMs checkOutMs : Int) : Int :=
  ceilDivInt (checkOutMs - checkInMs) msPerDay

/-- JS `x || d` on an optional numeric value: absent or zero falls back to
the default. -/
def jsOrRat (v : Option Rat) (d : Rat) : Rat :=
  match v with
  | none => d
  | some x => if x = 0 then d else x

/-- JS `Math.round`: half-up toward positive infinity, `⌊x + 1/2⌋`. -/
def jsRound (x : Rat) : Int :=
  ⌊x + 1/2⌋

/-- The default tax rate constant (12%). -/
def DEFAULT_TAX_RATE : Rat := 12/100

structure PricingParams where
  checkInMs : Int
  checkOutMs : Int
  pricePerNight : Rat
  discountAmount : Option Rat
  taxRate : Option Rat
deriving DecidableEq, Repr

structure PricingCalculation where
  nights : Int
  pricePerNight : Rat
  basePrice : Rat
  taxAmount : Int
  discountAmount : Rat
  totalPrice : Rat
deriving DecidableEq, Repr

/-- `BookingPricingService.calculatePricing`. -/
def calculatePricing (p : PricingParams) : PricingCalculation :=
  let nights := calculateNights p.checkInMs p.checkOutMs
  let basePrice := p.pricePerNight * (nights : Rat)
  let discountAmount := jsOrRat p.discountAmount 0
  let priceAfterDiscount := basePrice - discountAmount
  let taxRate := jsOrRat p.taxRate DEFAULT_TAX_RATE
  let taxAmount := jsRound (priceAfterDiscount * taxRate)
  { nights := nights
    pricePerNight := p.pricePerNight
    basePrice := basePrice
    taxAmount := taxAmount
    discountAmount := discountAmount
    totalPrice := priceAfterDiscount + (taxAmount : Rat) }

/-! ## Field and policy validation

The individual validator bodies (`validateGuestName`, `validatePhoneNumber`,
`validateChildren`, `validateSpecialRequests`,
`validateGuestCapacityByRoomType`, `validateNumberOfRoomsByType` and the
`MAX_ROOMS_PER_TYPE` table) live in modules that are not part of this
source tree; only their call sites are.  They are modelled from the
specification's wording of the corresponding rules. -/

/-- Modelled from the spec: the per-room-type business tables
(`capacity ... per-type lookup keyed by the room type's display name`,
`type-specific maximum` room count, and the fixed special-request
word-count ceiling) whose defining modules are missing from the tree. -/
structure Policy where
  capacityForType : String → Nat
  maxRoomsForType : String → Option Nat
  specialRequestsWordLimit : Nat

/-- Modelled from the spec: `validateGuestName` — guest name contains no
digits (module missing from the tree). -/
def validateGuestName (name : String) : Bool :=
  name.toList.all (fun c => !c.isDigit)

/-- Modelled from the spec: `validatePhoneNumber` — phone is exactly 10
digits (module missing from the tree). -/
def validatePhoneNumber (phone : String) : Bool :=
  phone.length == 10 && phone.toList.all Char.isDigit

/-- Modelled from the spec: `validateChildren` — children count between 0
and total guests inclusive (module missing from the tree). -/
def validateChildren (children guests : Nat) : Bool :=
  children ≤ guests

/-- Number of whitespace-separated words in a text. -/
def wordCount (s : String) : Nat :=
  ((s.splitOn " ").filter (fun w => w ≠ "")).length

/-- Modelled from the spec: `validateSpecialRequests` — the text does not
exceed a fixed word-count ceiling (module missing from the tree). -/
def validateSpecialRequests (pol : Policy) (text : String) : Bool :=
  wordCount text ≤ pol.specialRequestsWordLimit

/-- Modelled from the spec: `validateGuestCapacityByRoomType` — guest
count does not exceed the room type's stated capacity, keyed by display
name (module missing from the tree). -/
def validateGuestCapacityByRoomType (pol : Policy) (guests : Nat) (roomName : String) : Bool :=
  guests ≤ pol.capacityForType roomName

/-- Modelled from the spec: `validateNumberOfRoomsByType` — requested room
count does not exceed the type-specific maximum when one is configured
(module missing from the tree). -/
def validateNumberOfRoomsByType (pol : Policy) (n : Nat) (roomName : String) : Bool :=
  match pol.maxRoomsForType roomName with
  | none => true
  | some m => n ≤ m

/-- `Room.findById` over the catalog. -/
def findRoom (catalog : List Room) (rid : Nat) : Option Room :=
  catalog.find? (fun r => r.id == rid)

/-- The distinct failures of the creation pipeline, in source order. -/
inductive CreateErr where
  | invalidName
  | invalidPhone
  | invalidChildren
  | invalidSpecialRequests
  | roomNotFound
  | roomUnavailable
  | capacityExceeded
  | roomCountInvalid
  | insufficientRooms
  | exceedsMaxRooms
  | conflict
deriving DecidableEq, Repr

/-- A creation request body (`req.body` after destructuring; `children`
already carries its destructuring default 0). -/
structure CreateReq where
  roomId : Nat := 0
  checkIn : Int := 0
  checkOut : Int := 0
  guests : Nat := 1
  children : Nat := 0
  numberOfRooms : Nat := 1
  guestName : String := "John"
  guestEmail : String := "john@example.com"
  guestPhone : String := "9876543210"
  nights : Int := 1
  pricePerNight : Int := 0
  totalPrice : Int := 0
  taxAmount : Option Int := none
  discountAmount : Option Int := none
  specialRequests : Option String := none
deriving DecidableEq, Repr

/-- JS `Number(x) || d` on an optional integer field. -/
def jsOrInt (v : Option Int) (d : Int) : Int :=
  match v with
  | none => d
  | some x => if x = 0 then d else x

/-- The document `BookingService.createBooking` persists: every field
taken from the request (pricing snapshot included), status forced to
`confirmed`, taxAmount/discountAmount defaulted by `|| 0`. -/
def mkBooking (nid : Nat) (req : CreateReq) : Booking :=
  { id := nid
    room := req.roomId
    checkIn := req.checkIn
    checkOut := req.checkOut
    guests := req.guests
    children := req.children
    numberOfRooms := some req.numberOfRooms
    guestName := req.guestName.trim
    guestEmail := req.guestEmail.trim.toLower
    guestPhone := req.guestPhone.trim
    nights := req.nights
    pricePerNight := req.pricePerNight
    totalPrice := req.totalPrice
    taxAmount := jsOrInt req.taxAmount 0
    discountAmount := jsOrInt req.discountAmount 0
    status := .confirmed
    specialRequests := some ((req.specialRequests.getD "").trim)
    cancelledAt := none
    cancelledBy := none
    cancellationReason := none }

/-- `ceil(guests / 3)`: minimum rooms for the guests-per-room ratio. -/
def requiredRoomsFor (guests : Nat) : Nat :=
  (guests + 2) / 3

/-- The createBooking controller pipeline (inventory-aware variant):
name, phone, children, special requests, room lookup/availability,
capacity by type, rooms-by-type maximum, guests-per-room ratio, the
`MAX_ROOMS_PER_TYPE` cap, then the per-day occupancy admission check;
the first failure is returned, otherwise the booking that is persisted. -/
def createBookingResult (pol : Policy) (catalog : List Room) (s : List Booking)
    (nid : Nat) (req : CreateReq) : Except CreateErr Booking :=
  if !validateGuestName req.guestName then .error .invalidName
  else if !validatePhoneNumber req.guestPhone then .error .invalidPhone
  else if !validateChildren req.children req.guests then .error .invalidChildren
  else if !(match req.specialRequests with
            | some t => validateSpecialRequests pol t
            | none => true) then .error .invalidSpecialRequests
  else match findRoom catalog req.roomId with
  | none => .error .roomNotFound
  | some room =>
    if !room.isAvailable then .error .roomUnavailable
    else if !validateGuestCapacityByRoomType pol req.guests room.name then
      .error .capacityExceeded
    else if !validateNumberOfRoomsByType pol req.numberOfRooms room.name then
      .error .roomCountInvalid
    else if req.numberOfRooms < requiredRoomsFor req.guests then
      .error .insufficientRooms
    else if (match pol.maxRoomsForType room.name with
             | some m => m ≠ 0 && req.numberOfRooms > m
             | none => false) then
      .error .exceedsMaxRooms
    else if availableRoomsFor s req.roomId req.checkIn req.checkOut room.totalRooms
              < (req.numberOfRooms : Int) then
      .error .conflict
    else
      .ok (mkBooking nid req)

/-! ## Conflict check, update, cancel, delete -/

/-- `BookingValidationService.checkBookingConflict`: `findOne` over
bookings of the room with status pending/confirmed, `checkIn < hi`,
`checkOut > lo`, optionally excluding one booking id. -/
def checkBookingConflict (s : List Booking) (rid : Nat) (lo hi : Int)
    (exclude : Option Nat) : Option Booking :=
  s.find? (fun b =>
    b.room == rid && statusActive b.status &&
    decide (b.checkIn < hi) && decide (b.checkOut > lo) &&
    (match exclude with
     | some e => b.id != e
     | none => true))

/-- An update request body: each field optional, absent fields untouched
(`findByIdAndUpdate` semantics). -/
structure UpdateBody where
  checkIn : Option Int
  checkOut : Option Int
  guests : Option Nat
  numberOfRooms : Option Nat
  status : Option BookingStatus
deriving DecidableEq, Repr

/-- Apply an update body to a booking document. -/
def applyUpdate (b : Booking) (u : UpdateBody) : Booking :=
  { b with
    checkIn := u.checkIn.getD b.checkIn
    checkOut := u.checkOut.getD b.checkOut
    guests := u.guests.getD b.guests
    numberOfRooms := match u.numberOfRooms with
                     | some n => some n
                     | none => b.numberOfRooms
    status := u.status.getD b.status }

/-- Replace the first booking with the given id. -/
def replaceById (s : List Booking) (id : Nat) (f : Booking → Booking) : List Booking :=
  match s with
  | [] => []
  | b :: rest => if b.id == id then f b :: rest else b :: replaceById rest id f

def findBooking (s : List Booking) (id : Nat) : Option Booking :=
  s.find? (fun b => b.id == id)

/-- The updateBooking controller: 404 when absent; when the body carries a
check-in or check-out date, run `checkBookingConflict` with the booking's
own id excluded and abort on a hit; otherwise (dates untouched, including
pure room-count changes) apply the body with no check at all.  An error
result leaves the store unchanged (the controller returns before
`findByIdAndUpdate`). -/
def updateBooking (s : List Booking) (id : Nat) (u : UpdateBody) :
    Except String (List Booking) :=
  match findBooking s id with
  | none => .error "Booking not found"
  | some b =>
    if u.checkIn.isSome || u.checkOut.isSome then
      let newIn := u.checkIn.getD b.checkIn
      let newOut := u.checkOut.getD b.checkOut
      match checkBookingConflict s b.room newIn newOut (some id) with
      | some _ => .error "Room is not available for selected dates"
      | none => .ok (replaceById s id (fun x => applyUpdate x u))
    else
      .ok (replaceById s id (fun x => applyUpdate x u))

/-- Modelled from the spec: the Booking model's `canBeCancelled` method
(model module missing from the tree) — the stay's check-in must be at
least 24 hours in the future at the moment of cancellation.  `nowMs` is
the current instant in milliseconds; check-in is a day at midnight UTC. -/
def canBeCancelled (b : Booking) (nowMs : Int) : Bool :=
  decide (msPerDay ≤ b.checkIn * msPerDay - nowMs)

/-- The mutation `cancelBooking` performs on the found document. -/
def setCancelled (b : Booking) (nowMs : Int) (uid : Option Nat)
    (reason : Option String) : Booking :=
  { b with
    status := .cancelled
    cancelledAt := some nowMs
    cancelledBy := match uid with
                   | some u => some u
                   | none => b.cancelledBy
    cancellationReason := match reason with
                          | some r => some r
                          | none => b.cancellationReason }

/-- `BookingService.cancelBooking`: not-found and not-cancellable throw
before any mutation; otherwise the booking is marked cancelled with its
audit fields.  An error result leaves the store unchanged. -/
def cancelBooking (s : List Booking) (id : Nat) (nowMs : Int)
    (uid : Option Nat) (reason : Option String) : Except String (List Booking) :=
  match findBooking s id with
  | none => .error "Booking not found"
  | some b =>
    if !canBeCancelled b nowMs then
      .error "Booking cannot be cancelled (must be at least 24 hours before check-in)"
    else
      .ok (replaceById s id (fun x => setCancelled x nowMs uid reason))

/-- Remove the first booking with the given id. -/
def removeById (s : List Booking) (id : Nat) : List Booking :=
  match s with
  | [] => []
  | b :: rest => if b.id == id then rest else b :: removeById rest id

/-- `BookingService.deleteBooking`: hard delete, any status. -/
def deleteBooking (s : List Booking) (id : Nat) : Except String (List Booking) :=
  match findBooking s id with
  | none => .error "Booking not found"
  | some _ => .ok (removeById s id)

/-! ## Availability calendar -/

/-- `getRoomAvailability`: fetch the pending/confirmed bookings of the
room overlapping `[start, start+30)`, mark every day any of them covers
as booked, and emit one `(day, available)` cell for each day from `start`
to `start + 30` inclusive (the generation loop runs `while (d <= end)`). -/
def availabilityCalendar (s : List Booking) (rid : Nat) (start : Int) :
    List (Int × Bool) :=
  let endD := start + 30
  let fetched := s.filter (fun b =>
    b.room == rid && statusActive b.status &&
    decide (b.checkIn < endD) && decide (b.checkOut > start))
  (List.range 31).map (fun k : Nat =>
    (start + (k : Int), !(fetched.any (fun b => coversB b (start + (k : Int))))))

/-! ## Reservation lifecycle as a state machine -/

/-- An operation against the booking store.  `create` carries a full
request; `cancel` carries the clock instant and audit data. -/
inductive Op where
  | create (req : CreateReq)
  | update (id : Nat) (u : UpdateBody)
  | cancel (id : Nat) (nowMs : Int) (uid : Option Nat) (reason : Option String)
  | delete (id : Nat)

/-- One step of the store: failed operations leave the state unchanged
(every controller returns its error before persisting anything). -/
def stepOp (pol : Policy) (catalog : List Room) :
    List Booking × Nat → Op → List Booking × Nat
  | (s, nid), .create req =>
    match createBookingResult pol catalog s nid req with
    | .ok b => (s ++ [b], nid + 1)
    | .error _ => (s, nid)
  | (s, nid), .update id u =>
    match updateBooking s id u with
    | .ok s2 => (s2, nid)
    | .error _ => (s, nid)
  | (s, nid), .cancel id now uid reason =>
    match cancelBooking s id now uid reason with
    | .ok s2 => (s2, nid)
    | .error _ => (s, nid)
  | (s, nid), .delete id =>
    match deleteBooking s id with
    | .ok s2 => (s2, nid)
    | .error _ => (s, nid)

/-- Run a sequence of operations from the empty store. -/
def runOps (pol : Policy) (catalog : List Room) (ops : List Op) : List Booking × Nat :=
  ops.foldl (stepOp pol catalog) ([], 0)

/-- The core inventory invariant: for every room type the catalog lookup
resolves and every calendar night, the rooms occupied by pending/confirmed
reservations do not exceed the type's physical room count. -/
def InventoryInvariant (catalog : List Room) (s : List Booking) : Prop :=
  ∀ rid r, findRoom catalog rid = some r →
    ∀ d : Int, sumRoomsOn (activeFor rid s) d ≤ r.totalRooms

/-! ## Occupancy lemmas -/

theorem coversB_iff {b : Booking} {d : Int} :
    coversB b d = true ↔ b.checkIn ≤ d ∧ d < b.checkOut := by
  simp [coversB]

theorem sumRoomsOn_cons {b : Booking} {l : List Booking} {d : Int} :
    sumRoomsOn (b :: l) d =
      if coversB b d then roomsBooked b + sumRoomsOn l d else sumRoomsOn l d := rfl

theorem sumRoomsOn_le_cons {b : Booking} {l : List Booking} {d : Int} :
    sumRoomsOn l d ≤ sumRoomsOn (b :: l) d := by
  rw [sumRoomsOn_cons]; split <;> omega

theorem sumRoomsOn_append {l1 l2 : List Booking} {d : Int} :
    sumRoomsOn (l1 ++ l2) d = sumRoomsOn l1 d + sumRoomsOn l2 d := by
  induction l1 with
  | nil => simp [sumRoomsOn]
  | cons b t ih =>
    rw [List.cons_append, sumRoomsOn_cons, sumRoomsOn_cons, ih]
    split <;> omega

/-- If every booking covering day `d` also covers day `e`, the occupancy
on `d` is at most the occupancy on `e`. -/
theorem sumRoomsOn_mono_day {l : List Booking} {d e : Int}
    (h : ∀ b ∈ l, coversB b d = true → coversB b e = true) :
    sumRoomsOn l d ≤ sumRoomsOn l e := by
  induction l with
  | nil => exact le_refl _
  | cons b t ih =>
    have ht : ∀ x ∈ t, coversB x d = true → coversB x e = true :=
      fun x hx => h x (List.mem_cons_of_mem _ hx)
    rw [sumRoomsOn_cons, sumRoomsOn_cons]
    by_cases hc : coversB b d = true
    · rw [if_pos hc, if_pos (h b (List.mem_cons_self _ _) hc)]
      exact Nat.add_le_add_left (ih ht) _
    · rw [if_neg hc]
      refine le_trans (ih ht) ?_
      split <;> omega

/-- Filtering with predicates that agree on every booking covering `d`
yields the same occupancy on `d`. -/
theorem sumRoomsOn_filter_congr {l : List Booking} {d : Int} {p q : Booking → Bool}
    (h : ∀ b ∈ l, coversB b d = true → p b = q b) :
    sumRoomsOn (l.filter p) d = sumRoomsOn (l.filter q) d := by
  induction l with
  | nil => rfl
  | cons b t ih =>
    have ht : ∀ x ∈ t, coversB x d = true → p x = q x :=
      fun x hx => h x (List.mem_cons_of_mem _ hx)
    have ihe := ih ht
    rw [List.filter_cons, List.filter_cons]
    by_cases hc : coversB b d = true
    · have hpq := h b (List.mem_cons_self _ _) hc
      rw [hpq]
      cases hq : q b
      · rw [if_neg (by simp), if_neg (by simp)]
        exact ihe
      · rw [if_pos rfl, if_pos rfl, sumRoomsOn_cons, sumRoomsOn_cons,
          if_pos hc, if_pos hc, ihe]
    · have hcons : ∀ u : List Booking, sumRoomsOn (b :: u) d = sumRoomsOn u d := by
        intro u
        rw [sumRoomsOn_cons, if_neg hc]
      cases hp : p b <;> cases hq : q b
      · rw [if_neg (by simp), if_neg (by simp)]
        exact ihe
      · rw [if_neg (by simp), if_pos rfl, hcons]
        exact ihe
      · rw [if_pos rfl, if_neg (by simp), hcons]
        exact ihe
      · rw [if_pos rfl, if_pos rfl, hcons, hcons]
        exact ihe

theorem listMaxBy_le {l : List Int} {f : Int → Nat} {B : Nat}
    (h : ∀ d ∈ l, f d ≤ B) : listMaxBy l f ≤ B := by
  induction l with
  | nil => exact Nat.zero_le _
  | cons a t ih =>
    simp only [listMaxBy, List.foldr_cons]
    exact max_le (h a (List.mem_cons_self _ _))
      (ih (fun x hx => h x (List.mem_cons_of_mem _ hx)))

theorem le_listMaxBy {l : List Int} {f : Int → Nat} {d : Int} (h : d ∈ l) :
    f d ≤ listMaxBy l f := by
  induction l with
  | nil => cases h
  | cons a t ih =>
    simp only [listMaxBy, List.foldr_cons]
    rcases List.mem_cons.mp h with rfl | hm
    · exact le_max_left _ _
    · exact le_trans (ih hm) (le_max_right _ _)

theorem mem_daysOf {b : Booking} {d : Int} :
    d ∈ daysOf b ↔ coversB b d = true := by
  simp only [daysOf, List.mem_map, List.mem_range, coversB_iff]
  constructor
  · rintro ⟨k, hk, rfl⟩
    omega
  · intro ⟨h1, h2⟩
    exact ⟨(d - b.checkIn).toNat, by omega, by omega⟩

theorem mem_windowDays {lo hi d : Int} :
    d ∈ windowDays lo hi ↔ lo ≤ d ∧ d < hi := by
  simp only [windowDays, List.mem_map, List.mem_range]
  constructor
  · rintro ⟨k, hk, rfl⟩
    omega
  · intro ⟨h1, h2⟩
    exact ⟨(d - lo).toNat, by omega, by omega⟩

theorem mem_allDays {l : List Booking} {d : Int} :
    d ∈ allDays l ↔ ∃ b ∈ l, coversB b d = true := by
  simp [allDays, List.mem_flatMap, mem_daysOf]

theorem exists_cover_of_sumRoomsOn_pos {l : List Booking} {d : Int}
    (h : sumRoomsOn l d ≠ 0) : ∃ b ∈ l, coversB b d = true := by
  induction l with
  | nil => exact absurd rfl h
  | cons b t ih =>
    rw [sumRoomsOn_cons] at h
    by_cases hc : coversB b d = true
    · exact ⟨b, (List.mem_cons_self _ _), hc⟩
    · rw [if_neg hc] at h
      obtain ⟨x, hx, hcx⟩ := ih h
      exact ⟨x, List.mem_cons_of_mem _ hx, hcx⟩

/-- Occupancy on any single day never exceeds the computed peak. -/
theorem sumRoomsOn_le_peak {l : List Booking} {d : Int} :
    sumRoomsOn l d ≤ peakOccupancy l := by
  by_cases h : sumRoomsOn l d = 0
  · simp [h]
  · obtain ⟨b, hb, hc⟩ := exists_cover_of_sumRoomsOn_pos h
    exact le_listMaxBy (mem_allDays.mpr ⟨b, hb, hc⟩)

theorem mem_fetchOverlapping {s : List Booking} {rid : Nat} {lo hi : Int} {b : Booking} :
    b ∈ fetchOverlapping s rid lo hi ↔
      b ∈ s ∧ b.room = rid ∧ statusActive b.status = true ∧
        b.checkIn < hi ∧ lo < b.checkOut := by
  simp [fetchOverlapping, List.mem_filter, and_assoc]

/-- The unclipped per-day maximum the source computes equals the
window-clipped peak of the specification, provided every booking in the
list overlaps the requested window (as the fetched bookings do): on days
before the window every contributing booking also covers the window's
first day, and on days after it every one also covers its last day. -/
theorem peakOccupancy_eq_specPeak {l : List Booking} {lo hi : Int}
    (hlt : lo < hi) (hov : ∀ b ∈ l, b.checkIn < hi ∧ lo < b.checkOut) :
    peakOccupancy l = specPeakOccupancy l lo hi := by
  apply le_antisymm
  · apply listMaxBy_le
    intro d hd
    rcases mem_allDays.mp hd with ⟨b, hb, hc⟩
    rcases coversB_iff.mp hc with ⟨h1, h2⟩
    by_cases hd1 : d < lo
    · refine le_trans (sumRoomsOn_mono_day ?_)
        (le_listMaxBy (mem_windowDays.mpr ⟨le_refl lo, hlt⟩))
      intro x hx hcx
      rcases coversB_iff.mp hcx with ⟨hx1, hx2⟩
      exact coversB_iff.mpr ⟨by omega, (hov x hx).2⟩
    · by_cases hd2 : d < hi
      · exact le_listMaxBy (mem_windowDays.mpr ⟨by omega, hd2⟩)
      · have hmem : (hi - 1) ∈ windowDays lo hi :=
          mem_windowDays.mpr ⟨by omega, by omega⟩
        refine le_trans (sumRoomsOn_mono_day (e := hi - 1) ?_) (le_listMaxBy hmem)
        intro x hx hcx
        rcases coversB_iff.mp hcx with ⟨hx1, hx2⟩
        have hxhi := (hov x hx).1
        exact coversB_iff.mpr ⟨by omega, by omega⟩
  · exact listMaxBy_le (fun d _ => sumRoomsOn_le_peak)

/-! ## Claim C2: the admission engine versus the specified peak computation -/

/-- C2: for every admission request over a genuine window `[lo, hi)` and
every booking store, the engine's `availableRooms` equals the room type's
total count minus the spec's window-clipped peak occupancy of the fetched
overlapping pending/confirmed reservations, and the request passes the
`availableRooms < numberOfRooms` rejection iff the requested count is at
most that available count. -/
theorem createAdmission_matches_specPeak (s : List Booking) (rid : Nat)
    (lo hi : Int) (total n : Nat) (hlt : lo < hi) :
    availableRoomsFor s rid lo hi total
      = (total : Int) - (specPeakOccupancy (fetchOverlapping s rid lo hi) lo hi : Int)
    ∧ (¬ availableRoomsFor s rid lo hi total < (n : Int) ↔
        (n : Int) ≤ (total : Int)
          - (specPeakOccupancy (fetchOverlapping s rid lo hi) lo hi : Int)) := by
  have hpe : peakOccupancy (fetchOverlapping s rid lo hi)
      = specPeakOccupancy (fetchOverlapping s rid lo hi) lo hi :=
    peakOccupancy_eq_specPeak hlt (fun b hb =>
      ⟨(mem_fetchOverlapping.mp hb).2.2.2.1, (mem_fetchOverlapping.mp hb).2.2.2.2⟩)
  refine ⟨by rw [availableRoomsFor, hpe], ?_⟩
  rw [availableRoomsFor, hpe]
  exact not_lt

/-- A store with one confirmed one-room booking of room 1 over days
`[0, 2)`; a request for window `[1, 3)` sees 1 of the 2 rooms available. -/
def bookingA : Booking :=
  { id := 1, room := 1, checkIn := 0, checkOut := 2, numberOfRooms := some 1 }

theorem createAdmission_matches_specPeak_witness :
    availableRoomsFor [bookingA] 1 1 3 2
      = (2 : Int) - (specPeakOccupancy (fetchOverlapping [bookingA] 1 1 3) 1 3 : Int)
    ∧ (¬ availableRoomsFor [bookingA] 1 1 3 2 < ((1 : Nat) : Int) ↔
        ((1 : Nat) : Int) ≤ (2 : Int)
          - (specPeakOccupancy (fetchOverlapping [bookingA] 1 1 3) 1 3 : Int)) :=
  createAdmission_matches_specPeak [bookingA] 1 1 3 2 1 (by decide)

/-! ## Claim C4: calculateNights -/

/-- C4: for every window with `checkOut > checkIn`, `calculateNights` is
the ceiling of the elapsed time divided by one day, is at least 1, and is
exactly 1 for a span of exactly 24 hours. -/
theorem calculateNights_spec (ci co : Int) (h : ci < co) :
    calculateNights ci co = ⌈((co - ci : Int) : Rat) / (msPerDay : Rat)⌉
    ∧ 1 ≤ calculateNights ci co
    ∧ (co - ci = msPerDay → calculateNights ci co = 1) := by
  have hpos : (0 : Int) < msPerDay := by decide
  have hceil : calculateNights ci co = ⌈((co - ci : Int) : Rat) / (msPerDay : Rat)⌉ := by
    rw [calculateNights, ceilDivInt, Int.fdiv_eq_ediv _ (le_of_lt hpos)]
    have hfloor : ⌊((-(co - ci) : Int) : Rat) / ((86400000 : Nat) : Rat)⌋
        = (-(co - ci)) / ((86400000 : Nat) : Int) :=
      Rat.floor_intCast_div_natCast (-(co - ci)) 86400000
    have hneg : -(((co - ci : Int) : Rat) / (msPerDay : Rat))
        = ((-(co - ci) : Int) : Rat) / ((86400000 : Nat) : Rat) := by
      rw [msPerDay]
      push_cast
      ring
    rw [show ⌈((co - ci : Int) : Rat) / (msPerDay : Rat)⌉
        = -⌊-(((co - ci : Int) : Rat) / (msPerDay : Rat))⌋ by rw [Int.floor_neg, neg_neg]]
    rw [hneg, hfloor]
    norm_num [msPerDay]
  refine ⟨hceil, ?_, ?_⟩
  · rw [hceil]
    have hq : (0 : Rat) < ((co - ci : Int) : Rat) / (msPerDay : Rat) := by
      apply div_pos
      · exact_mod_cast Int.sub_pos.mpr h
      · rw [msPerDay]; norm_num
    exact Int.ceil_pos.mpr hq
  · intro he
    rw [hceil, he]
    rw [div_self (by rw [msPerDay]; norm_num)]
    exact Int.ceil_one

theorem calculateNights_spec_witness :
    calculateNights 0 3600000 = ⌈(((3600000 : Int) - 0 : Int) : Rat) / (msPerDay : Rat)⌉
    ∧ 1 ≤ calculateNights 0 3600000
    ∧ ((3600000 : Int) - 0 = msPerDay → calculateNights 0 3600000 = 1) := by
  have h := calculateNights_spec 0 3600000 (by decide)
  simpa using h

/-! ## Claim C5: the overlap test -/

/-- C5: the conflict check reports an overlap iff some pending/confirmed
reservation of the room satisfies `checkIn < hi ∧ checkOut > lo`; in
particular, when every such reservation ends on or before the requested
check-in (or starts on or after the requested check-out) — e.g. a new
check-in equal to an existing check-out — no conflict is reported. -/
theorem checkBookingConflict_spec (s : List Booking) (rid : Nat) (lo hi : Int) :
    ((checkBookingConflict s rid lo hi none).isSome ↔
      ∃ b ∈ s, b.room = rid ∧ statusActive b.status = true ∧
        b.checkIn < hi ∧ lo < b.checkOut)
    ∧ ((∀ b ∈ s, b.room = rid → statusActive b.status = true →
          b.checkOut ≤ lo ∨ hi ≤ b.checkIn) →
        checkBookingConflict s rid lo hi none = none) := by
  constructor
  · rw [checkBookingConflict, List.find?_isSome]
    constructor
    · rintro ⟨b, hb, hp⟩
      simp only [Bool.and_eq_true, Bool.and_true, beq_iff_eq, decide_eq_true_eq] at hp
      obtain ⟨⟨⟨h1, h2⟩, h3⟩, h4⟩ := hp
      exact ⟨b, hb, h1, h2, h3, h4⟩
    · rintro ⟨b, hb, h1, h2, h3, h4⟩
      refine ⟨b, hb, ?_⟩
      simp only [Bool.and_eq_true, Bool.and_true, beq_iff_eq, decide_eq_true_eq]
      exact ⟨⟨⟨h1, h2⟩, h3⟩, h4⟩
  · intro hall
    rw [checkBookingConflict, List.find?_eq_none]
    intro b hb hp
    simp only [Bool.and_eq_true, Bool.and_true, beq_iff_eq, decide_eq_true_eq] at hp
    obtain ⟨⟨⟨h1, h2⟩, h3⟩, h4⟩ := hp
    rcases hall b hb h1 h2 with hco | hhi
    · omega
    · omega

/-- Reservation C of the spec scenario: check-in equal to `bookingA`'s
check-out (`[2, 4)` against `[0, 2)`) reports no conflict. -/
theorem checkBookingConflict_spec_witness :
    ((checkBookingConflict [bookingA] 1 2 4 none).isSome ↔
      ∃ b ∈ [bookingA], b.room = 1 ∧ statusActive b.status = true ∧
        b.checkIn < 4 ∧ (2 : Int) < b.checkOut)
    ∧ ((∀ b ∈ [bookingA], b.room = 1 → statusActive b.status = true →
          b.checkOut ≤ 2 ∨ (4 : Int) ≤ b.checkIn) →
        checkBookingConflict [bookingA] 1 2 4 none = none) :=
  checkBookingConflict_spec [bookingA] 1 2 4

/-! ## Claim C3: the pricing calculation -/

/-- C3 as stated is false: a caller-supplied tax rate of exactly 0 is
replaced by the 12% default (`taxRate || DEFAULT_TAX_RATE`), so the tax is
not `round(afterDiscount × taxRate)`: with perNight 100 for one night and
taxRate 0 the code yields tax 12, where the claim's formula yields 0. -/
theorem calculatePricing_zero_taxRate_counterexample :
    (calculatePricing ⟨0, msPerDay, 100, none, some 0⟩).taxAmount = 12
    ∧ jsRound (((calculatePricing ⟨0, msPerDay, 100, none, some 0⟩).basePrice
        - (calculatePricing ⟨0, msPerDay, 100, none, some 0⟩).discountAmount) * 0) = 0
    ∧ (12 : Int) ≠ 0 := by
  have hnights : calculateNights 0 msPerDay = 1 := by decide
  refine ⟨?_, ?_, by decide⟩
  · show jsRound ((100 * ((calculateNights 0 msPerDay : Int) : Rat) - jsOrRat none 0)
        * jsOrRat (some 0) DEFAULT_TAX_RATE) = 12
    rw [hnights, jsRound, jsOrRat, jsOrRat, DEFAULT_TAX_RATE]
    norm_num
  · show jsRound ((100 * ((calculateNights 0 msPerDay : Int) : Rat) - jsOrRat none 0) * 0) = 0
    rw [hnights, jsRound, jsOrRat]
    norm_num

/-- C3 amended: for every input with a nonzero tax rate, the pricing
calculation returns `base = perNight × nights`,
`afterDiscount = base − discount` (discount defaulting to 0, never clamped),
`tax = ⌊afterDiscount × taxRate + 1/2⌋` (round half-up) and
`total = afterDiscount + tax` exactly; a zero tax rate falls back to the
12% default. -/
theorem calculatePricing_spec (pIn pOut : Int) (rate : Rat) (disc : Option Rat)
    (t : Rat) (ht : t ≠ 0) :
    (calculatePricing ⟨pIn, pOut, rate, disc, some t⟩).nights
        = calculateNights pIn pOut
    ∧ (calculatePricing ⟨pIn, pOut, rate, disc, some t⟩).pricePerNight = rate
    ∧ (calculatePricing ⟨pIn, pOut, rate, disc, some t⟩).basePrice
        = rate * (calculateNights pIn pOut : Rat)
    ∧ (calculatePricing ⟨pIn, pOut, rate, disc, some t⟩).discountAmount = disc.getD 0
    ∧ (calculatePricing ⟨pIn, pOut, rate, disc, some t⟩).taxAmount
        = ⌊(rate * (calculateNights pIn pOut : Rat) - disc.getD 0) * t + 1/2⌋
    ∧ (calculatePricing ⟨pIn, pOut, rate, disc, some t⟩).totalPrice
        = (rate * (calculateNights pIn pOut : Rat) - disc.getD 0)
          + ((calculatePricing ⟨pIn, pOut, rate, disc, some t⟩).taxAmount : Rat) := by
  have hdisc : jsOrRat disc 0 = disc.getD 0 := by
    cases disc with
    | none => rfl
    | some x =>
      simp only [jsOrRat, Option.getD_some]
      split
      · rename_i hx
        exact hx.symm
      · rfl
  have htax : jsOrRat (some t) DEFAULT_TAX_RATE = t := by
    simp [jsOrRat, ht]
  refine ⟨rfl, rfl, rfl, by simp [calculatePricing, hdisc], ?_, ?_⟩
  · simp [calculatePricing, jsRound, hdisc, htax]
  · simp [calculatePricing, jsRound, hdisc, htax]

theorem calculatePricing_spec_witness :
    (calculatePricing ⟨0, 2 * msPerDay, 3500, some 100, some (12/100)⟩).nights
        = calculateNights 0 (2 * msPerDay)
    ∧ (calculatePricing ⟨0, 2 * msPerDay, 3500, some 100, some (12/100)⟩).pricePerNight
        = 3500
    ∧ (calculatePricing ⟨0, 2 * msPerDay, 3500, some 100, some (12/100)⟩).basePrice
        = 3500 * (calculateNights 0 (2 * msPerDay) : Rat)
    ∧ (calculatePricing ⟨0, 2 * msPerDay, 3500, some 100, some (12/100)⟩).discountAmount
        = (some (100 : Rat)).getD 0
    ∧ (calculatePricing ⟨0, 2 * msPerDay, 3500, some 100, some (12/100)⟩).taxAmount
        = ⌊(3500 * (calculateNights 0 (2 * msPerDay) : Rat) - (some (100 : Rat)).getD 0)
            * (12/100) + 1/2⌋
    ∧ (calculatePricing ⟨0, 2 * msPerDay, 3500, some 100, some (12/100)⟩).totalPrice
        = (3500 * (calculateNights 0 (2 * msPerDay) : Rat) - (some (100 : Rat)).getD 0)
          + ((calculatePricing ⟨0, 2 * msPerDay, 3500, some 100,
              some (12/100)⟩).taxAmount : Rat) :=
  calculatePricing_spec 0 (2 * msPerDay) 3500 (some 100) (12/100) (by norm_num)

/-! ## The creation pipeline: admitted bookings -/

theorem jsOrInt_zero_getD (v : Option Int) : jsOrInt v 0 = v.getD 0 := by
  cases v with
  | none => rfl
  | some x =>
    simp only [jsOrInt, Option.getD_some]
    split
    · rename_i hx
      exact hx.symm
    · rfl

set_option maxHeartbeats 1000000 in
/-- An admitted creation request persists exactly `mkBooking nid req`, the
room lookup succeeded, and the inventory rejection did not fire. -/
theorem createBookingResult_ok_elim {pol : Policy} {catalog : List Room}
    {s : List Booking} {nid : Nat} {req : CreateReq} {b : Booking}
    (hok : createBookingResult pol catalog s nid req = .ok b) :
    b = mkBooking nid req ∧
    ∃ room, findRoom catalog req.roomId = some room ∧
      ¬ availableRoomsFor s req.roomId req.checkIn req.checkOut room.totalRooms
          < (req.numberOfRooms : Int) := by
  rw [createBookingResult] at hok
  cases hroom : findRoom catalog req.roomId with
  | none =>
    simp only [hroom] at hok
    split_ifs at hok <;> exact Except.noConfusion hok
  | some room =>
    simp only [hroom] at hok
    split_ifs at hok with h1 h2 h3 h4 h5 h6 h7 h8 h9 h10
    all_goals try exact Except.noConfusion hok
    exact ⟨(Except.ok.inj hok).symm, room, rfl, h10⟩

/-- C10: the persisted pricing snapshot (nights, pricePerNight, totalPrice,
taxAmount, discountAmount) equals the client-supplied numbers, with
taxAmount and discountAmount defaulting to 0 when absent; the persisted
document is `mkBooking nid req`, a function of the request and generated id
alone — independent of the room's rate and window, so nothing is
recomputed or verified by the pricing calculator. -/
theorem createBooking_pricing_passthrough {pol : Policy} {catalog : List Room}
    {s : List Booking} {nid : Nat} {req : CreateReq} {b : Booking}
    (hok : createBookingResult pol catalog s nid req = .ok b) :
    b = mkBooking nid req
    ∧ b.nights = req.nights
    ∧ b.pricePerNight = req.pricePerNight
    ∧ b.totalPrice = req.totalPrice
    ∧ b.taxAmount = req.taxAmount.getD 0
    ∧ b.discountAmount = req.discountAmount.getD 0 := by
  obtain ⟨hb, -⟩ := createBookingResult_ok_elim hok
  subst hb
  exact ⟨rfl, rfl, rfl, rfl, jsOrInt_zero_getD _, jsOrInt_zero_getD _⟩

/-- A policy instantiating the spec-modelled per-type tables. -/
def testPolicy : Policy :=
  { capacityForType := fun _ => 10
    maxRoomsForType := fun _ => some 5
    specialRequestsWordLimit := 100 }

/-- The "Deluxe" room type of the spec scenarios: 2 physical rooms. -/
def deluxeRoom : Room :=
  { id := 1, name := "Deluxe", price := 3500, capacity := 10, totalRooms := 2,
    isAvailable := true }

/-- A well-formed creation request for one room of `deluxeRoom` over
`[0, 2)` with a client-supplied pricing snapshot. -/
def reqA : CreateReq :=
  { roomId := 1, checkIn := 0, checkOut := 2, guests := 1, numberOfRooms := 1,
    nights := 2, pricePerNight := 3500, totalPrice := 7840,
    taxAmount := some 840, discountAmount := none }

theorem createBooking_pricing_passthrough_witness :
    mkBooking 0 reqA = mkBooking 0 reqA
    ∧ (mkBooking 0 reqA).nights = reqA.nights
    ∧ (mkBooking 0 reqA).pricePerNight = reqA.pricePerNight
    ∧ (mkBooking 0 reqA).totalPrice = reqA.totalPrice
    ∧ (mkBooking 0 reqA).taxAmount = reqA.taxAmount.getD 0
    ∧ (mkBooking 0 reqA).discountAmount = reqA.discountAmount.getD 0 :=
  @createBooking_pricing_passthrough testPolicy [deluxeRoom] [] 0 reqA
    (mkBooking 0 reqA) (by rfl)

/-- A request whose check-out day precedes its check-in day and which
omits nothing else; the pipeline admits it. -/
def badDatesReq : CreateReq :=
  { roomId := 1, checkIn := 5, checkOut := 3, guests := 1, numberOfRooms := 1,
    nights := 1, pricePerNight := 3500, totalPrice := 3500,
    taxAmount := none, discountAmount := none }

/-- C8 is false as stated: the creation path has no required-field
presence rule and no date rule (parse, `checkOut > checkIn`,
not-in-the-past).  A request with `checkOut < checkIn` — which the claim
says stops at rule 6 with exactly that failure — sails through every
implemented rule and is admitted. -/
theorem createBooking_order_counterexample :
    badDatesReq.checkOut < badDatesReq.checkIn
    ∧ createBookingResult testPolicy [deluxeRoom] [] 0 badDatesReq
        = .ok (mkBooking 0 badDatesReq) := by
  exact ⟨by decide, by rfl⟩

/-- C8 amended: the creation pipeline evaluates its rules in the fixed
order guest-name, phone, children, special-requests, room lookup (not
found, then disabled), guest capacity by type, rooms-by-type maximum,
guests-per-room ratio, the `MAX_ROOMS_PER_TYPE` cap, and finally the
inventory check, stopping at the first failing rule and reporting exactly
that failure; there is no required-field presence rule and no date rule.
Each error is returned iff every earlier rule passed and its own rule
failed. -/
theorem createBookingResult_order (pol : Policy) (catalog : List Room)
    (s : List Booking) (nid : Nat) (req : CreateReq) :
    (createBookingResult pol catalog s nid req = .error .invalidName
      ↔ validateGuestName req.guestName = false)
    ∧ (createBookingResult pol catalog s nid req = .error .invalidPhone
      ↔ validateGuestName req.guestName = true
        ∧ validatePhoneNumber req.guestPhone = false)
    ∧ (createBookingResult pol catalog s nid req = .error .invalidChildren
      ↔ validateGuestName req.guestName = true
        ∧ validatePhoneNumber req.guestPhone = true
        ∧ validateChildren req.children req.guests = false)
    ∧ (createBookingResult pol catalog s nid req = .error .invalidSpecialRequests
      ↔ validateGuestName req.guestName = true
        ∧ validatePhoneNumber req.guestPhone = true
        ∧ validateChildren req.children req.guests = true
        ∧ (match req.specialRequests with
           | some t => validateSpecialRequests pol t
           | none => true) = false)
    ∧ (createBookingResult pol catalog s nid req = .error .roomNotFound
      ↔ validateGuestName req.guestName = true
        ∧ validatePhoneNumber req.guestPhone = true
        ∧ validateChildren req.children req.guests = true
        ∧ (match req.specialRequests with
           | some t => validateSpecialRequests pol t
           | none => true) = true
        ∧ findRoom catalog req.roomId = none)
    ∧ (∀ room, findRoom catalog req.roomId = some room →
        validateGuestName req.guestName = true →
        validatePhoneNumber req.guestPhone = true →
        validateChildren req.children req.guests = true →
        (match req.specialRequests with
         | some t => validateSpecialRequests pol t
         | none => true) = true →
        ((createBookingResult pol catalog s nid req = .error .roomUnavailable
          ↔ room.isAvailable = false)
        ∧ (createBookingResult pol catalog s nid req = .error .capacityExceeded
          ↔ room.isAvailable = true
            ∧ validateGuestCapacityByRoomType pol req.guests room.name = false)
        ∧ (createBookingResult pol catalog s nid req = .error .roomCountInvalid
          ↔ room.isAvailable = true
            ∧ validateGuestCapacityByRoomType pol req.guests room.name = true
            ∧ validateNumberOfRoomsByType pol req.numberOfRooms room.name = false)
        ∧ (createBookingResult pol catalog s nid req = .error .insufficientRooms
          ↔ room.isAvailable = true
            ∧ validateGuestCapacityByRoomType pol req.guests room.name = true
            ∧ validateNumberOfRoomsByType pol req.numberOfRooms room.name = true
            ∧ req.numberOfRooms < requiredRoomsFor req.guests)
        ∧ (createBookingResult pol catalog s nid req = .error .exceedsMaxRooms
          ↔ room.isAvailable = true
            ∧ validateGuestCapacityByRoomType pol req.guests room.name = true
            ∧ validateNumberOfRoomsByType pol req.numberOfRooms room.name = true
            ∧ ¬ req.numberOfRooms < requiredRoomsFor req.guests
            ∧ (match pol.maxRoomsForType room.name with
               | some m => m ≠ 0 && req.numberOfRooms > m
               | none => false) = true)
        ∧ (createBookingResult pol catalog s nid req = .error .conflict
          ↔ room.isAvailable = true
            ∧ validateGuestCapacityByRoomType pol req.guests room.name = true
            ∧ validateNumberOfRoomsByType pol req.numberOfRooms room.name = true
            ∧ ¬ req.numberOfRooms < requiredRoomsFor req.guests
            ∧ (match pol.maxRoomsForType room.name with
               | some m => m ≠ 0 && req.numberOfRooms > m
               | none => false) = false
            ∧ availableRoomsFor s req.roomId req.checkIn req.checkOut room.totalRooms
                < (req.numberOfRooms : Int))
        ∧ (createBookingResult pol catalog s nid req = .ok (mkBooking nid req)
          ↔ room.isAvailable = true
            ∧ validateGuestCapacityByRoomType pol req.guests room.name = true
            ∧ validateNumberOfRoomsByType pol req.numberOfRooms room.name = true
            ∧ ¬ req.numberOfRooms < requiredRoomsFor req.guests
            ∧ (match pol.maxRoomsForType room.name with
               | some m => m ≠ 0 && req.numberOfRooms > m
               | none => false) = false
            ∧ ¬ availableRoomsFor s req.roomId req.checkIn req.checkOut room.totalRooms
                < (req.numberOfRooms : Int)))) := by
  cases hn : validateGuestName req.guestName with
  | false => simp [createBookingResult, hn]
  | true =>
  cases hp : validatePhoneNumber req.guestPhone with
  | false => simp [createBookingResult, hn, hp]
  | true =>
  cases hc : validateChildren req.children req.guests with
  | false => simp [createBookingResult, hn, hp, hc]
  | true =>
  cases hs : (match req.specialRequests with
              | some t => validateSpecialRequests pol t
              | none => true) with
  | false => simp [createBookingResult, hn, hp, hc, hs]
  | true =>
  cases hroom : findRoom catalog req.roomId with
  | none => simp [createBookingResult, hn, hp, hc, hs, hroom]
  | some room =>
  cases hav : room.isAvailable with
  | false => simp [createBookingResult, hn, hp, hc, hs, hroom, hav]
  | true =>
  cases hcap : validateGuestCapacityByRoomType pol req.guests room.name with
  | false => simp [createBookingResult, hn, hp, hc, hs, hroom, hav, hcap]
  | true =>
  cases hcnt : validateNumberOfRoomsByType pol req.numberOfRooms room.name with
  | false => simp [createBookingResult, hn, hp, hc, hs, hroom, hav, hcap, hcnt]
  | true =>
  by_cases hratio : req.numberOfRooms < requiredRoomsFor req.guests
  · simp [createBookingResult, hn, hp, hc, hs, hroom, hav, hcap, hcnt, hratio]
  · cases hm : pol.maxRoomsForType room.name with
    | none =>
      by_cases hadm : availableRoomsFor s req.roomId req.checkIn req.checkOut
          room.totalRooms < (req.numberOfRooms : Int)
      · simp [createBookingResult, hn, hp, hc, hs, hroom, hav, hcap, hcnt, hratio,
          hm, hadm]
      · simp [createBookingResult, hn, hp, hc, hs, hroom, hav, hcap, hcnt, hratio,
          hm, hadm]
        omega
    | some m =>
      by_cases hm0 : m = 0
      · by_cases hadm : availableRoomsFor s req.roomId req.checkIn req.checkOut
            room.totalRooms < (req.numberOfRooms : Int)
        · simp [createBookingResult, hn, hp, hc, hs, hroom, hav, hcap, hcnt, hratio,
            hm, hm0, hadm]
        · simp [createBookingResult, hn, hp, hc, hs, hroom, hav, hcap, hcnt, hratio,
            hm, hm0, hadm]
          omega
      · by_cases hgt : m < req.numberOfRooms
        · simp [createBookingResult, hn, hp, hc, hs, hroom, hav, hcap, hcnt, hratio,
            hm, hm0, hgt]
        · by_cases hadm : availableRoomsFor s req.roomId req.checkIn req.checkOut
              room.totalRooms < (req.numberOfRooms : Int)
          · simp [createBookingResult, hn, hp, hc, hs, hroom, hav, hcap, hcnt, hratio,
              hm, hm0, hgt, hadm]
          · simp [createBookingResult, hn, hp, hc, hs, hroom, hav, hcap, hcnt, hratio,
              hm, hm0, hgt, hadm]
            omega

/-! ## Claim C9: the availability calendar -/

/-- C9 amended: the availability calendar emits 31 day cells, one per day
from the start date through 30 days after it inclusive; each of the first
30 days is marked independently, unavailable iff at least one
pending/confirmed reservation of the room covers it — every overlapping
reservation fully blocking, regardless of room counts or the type's
inventory.  (The 31st cell is blind to reservations starting exactly on
it, since the booking fetch requires `checkIn < start + 30`.) -/
theorem availabilityCalendar_spec (s : List Booking) (rid : Nat) (start : Int) :
    (availabilityCalendar s rid start).length = 31
    ∧ ∀ k : Nat, k < 30 →
      ∃ c : Bool, (availabilityCalendar s rid start)[k]? = some (start + (k : Int), c)
        ∧ (c = false ↔ ∃ b ∈ s, b.room = rid ∧ statusActive b.status = true
            ∧ b.checkIn ≤ start + (k : Int) ∧ start + (k : Int) < b.checkOut) := by
  constructor
  · simp [availabilityCalendar]
  · intro k hk
    refine ⟨!((s.filter (fun b =>
        b.room == rid && statusActive b.status &&
        decide (b.checkIn < start + 30) && decide (b.checkOut > start))).any
          (fun b => coversB b (start + (k : Int)))), ?_, ?_⟩
    · simp only [availabilityCalendar, List.getElem?_map,
        List.getElem?_range (show k < 31 by omega)]
      rfl
    · rw [Bool.not_eq_false']
      rw [List.any_eq_true]
      constructor
      · rintro ⟨b, hb, hcov⟩
        rw [List.mem_filter] at hb
        obtain ⟨hbs, hcond⟩ := hb
        simp only [Bool.and_eq_true, beq_iff_eq, decide_eq_true_eq] at hcond
        rcases coversB_iff.mp hcov with ⟨h1, h2⟩
        exact ⟨b, hbs, hcond.1.1.1, hcond.1.1.2, h1, h2⟩
      · rintro ⟨b, hbs, hr, hst, h1, h2⟩
        refine ⟨b, ?_, coversB_iff.mpr ⟨h1, h2⟩⟩
        rw [List.mem_filter]
        refine ⟨hbs, ?_⟩
        simp only [Bool.and_eq_true, beq_iff_eq, decide_eq_true_eq]
        refine ⟨⟨⟨hr, hst⟩, by omega⟩, by omega⟩

theorem availabilityCalendar_spec_witness :
    ∃ c : Bool, (availabilityCalendar [bookingA] 1 0)[1]? = some ((0 : Int) + (1 : Nat), c)
      ∧ (c = false ↔ ∃ b ∈ [bookingA], b.room = 1 ∧ statusActive b.status = true
          ∧ b.checkIn ≤ (0 : Int) + (1 : Nat) ∧ (0 : Int) + (1 : Nat) < b.checkOut) :=
  (availabilityCalendar_spec [bookingA] 1 0).2 1 (by decide)

/-- A confirmed booking starting exactly 30 days after the calendar start. -/
def lateBooking : Booking :=
  { id := 9, room := 1, checkIn := 30, checkOut := 32, numberOfRooms := some 1 }

/-- C9 fails as stated on the final calendar day: the calendar spans 31
days (start through start+30), and its last cell reports day 30 as
available even though a pending/confirmed reservation covers it, because
the booking fetch excludes reservations with `checkIn = start + 30`. -/
theorem availabilityCalendar_counterexample :
    (availabilityCalendar [lateBooking] 1 0).length = 31
    ∧ (availabilityCalendar [lateBooking] 1 0)[30]? = some (30, true)
    ∧ lateBooking.room = 1
    ∧ statusActive lateBooking.status = true
    ∧ lateBooking.checkIn ≤ 30
    ∧ (30 : Int) < lateBooking.checkOut := by
  refine ⟨by decide, by decide, by decide, by decide, by decide, by decide⟩

/-! ## Claim C6: cancellation -/

/-- Cancelling a booking makes it invisible to the active-status filter:
the store with the booking marked cancelled and the store with the booking
removed have identical active booking lists for every room. -/
theorem activeFor_replace_cancel (s : List Booking) (id rid : Nat)
    (now : Int) (uid : Option Nat) (reason : Option String) :
    activeFor rid (replaceById s id (fun x => setCancelled x now uid reason))
      = activeFor rid (removeById s id) := by
  induction s with
  | nil => rfl
  | cons a t ih =>
    rw [replaceById, removeById]
    by_cases ha : (a.id == id) = true
    · rw [if_pos ha, if_pos ha]
      show List.filter _ (setCancelled a now uid reason :: t) = _
      rw [List.filter_cons, if_neg (by simp [setCancelled, statusActive])]
      rfl
    · rw [if_neg ha, if_neg ha]
      show List.filter _ (a :: _) = List.filter _ (a :: _)
      rw [List.filter_cons, List.filter_cons]
      unfold activeFor at ih
      by_cases hpa : (a.room == rid && statusActive a.status) = true
      · rw [if_pos hpa, if_pos hpa, ih]
      · rw [if_neg hpa, if_neg hpa, ih]

/-- C6: cancelling a reservation whose check-in is less than 24 hours away
fails with the not-cancellable error — the service throws before any
mutation, leaving the store unchanged; cancelling one with check-in at
least 24 hours away succeeds, sets its status to cancelled, and the
reservation thereafter contributes to no occupancy computation: the
occupancy of every room on every day equals that of the store with the
booking removed (occupancy counts only pending/confirmed statuses). -/
theorem cancelBooking_spec (s : List Booking) (id : Nat) (now : Int)
    (uid : Option Nat) (reason : Option String) (b : Booking)
    (hfind : findBooking s id = some b) :
    (b.checkIn * msPerDay - now < msPerDay →
      cancelBooking s id now uid reason
        = .error "Booking cannot be cancelled (must be at least 24 hours before check-in)")
    ∧ (msPerDay ≤ b.checkIn * msPerDay - now →
      cancelBooking s id now uid reason
        = .ok (replaceById s id (fun x => setCancelled x now uid reason))
      ∧ (setCancelled b now uid reason).status = .cancelled
      ∧ ∀ rid d, sumRoomsOn (activeFor rid (replaceById s id
            (fun x => setCancelled x now uid reason))) d
          = sumRoomsOn (activeFor rid (removeById s id)) d) := by
  constructor
  · intro h
    have hcb : canBeCancelled b now = false := by
      simp only [canBeCancelled, decide_eq_false_iff_not]
      omega
    simp [cancelBooking, hfind, hcb]
  · intro h
    have hcb : canBeCancelled b now = true := by
      simp only [canBeCancelled, decide_eq_true_eq]
      omega
    refine ⟨by simp [cancelBooking, hfind, hcb], rfl, ?_⟩
    intro rid d
    rw [activeFor_replace_cancel]

/-- A confirmed booking with check-in 2 days from epoch. -/
def bookingC : Booking :=
  { id := 4, room := 1, checkIn := 2, checkOut := 4, numberOfRooms := some 1 }

theorem cancelBooking_spec_witness :
    cancelBooking [bookingC] 4 0 (some 7) (some "change of plans")
        = .ok (replaceById [bookingC] 4
            (fun x => setCancelled x 0 (some 7) (some "change of plans")))
    ∧ (setCancelled bookingC 0 (some 7) (some "change of plans")).status = .cancelled
    ∧ ∀ rid d, sumRoomsOn (activeFor rid (replaceById [bookingC] 4
          (fun x => setCancelled x 0 (some 7) (some "change of plans")))) d
        = sumRoomsOn (activeFor rid (removeById [bookingC] 4)) d :=
  (cancelBooking_spec [bookingC] 4 0 (some 7) (some "change of plans") bookingC
    (by rfl)).2 (by decide)

/-! ## Claim C7: the update path -/

/-- A confirmed one-room booking used as the update target. -/
def bookingU : Booking :=
  { id := 1, room := 1, checkIn := 10, checkOut := 12, numberOfRooms := some 1 }

/-- An update body touching only the room count. -/
def roomCountOnlyUpdate : UpdateBody :=
  { checkIn := none, checkOut := none, guests := none,
    numberOfRooms := some 5, status := none }

/-- C7 fails as stated: an update that changes only the room count commits
with no admission re-check of any kind.  With a 1-room inventory, raising
the reservation's count from 1 to 5 succeeds, although the full admission
check with the reservation's own occupancy excluded (1 room available, 5
requested) would have rejected it. -/
theorem updateBooking_no_recheck_counterexample :
    updateBooking [bookingU] 1 roomCountOnlyUpdate
      = .ok [applyUpdate bookingU roomCountOnlyUpdate]
    ∧ sumRoomsOn (activeFor 1 [applyUpdate bookingU roomCountOnlyUpdate]) 10 = 5
    ∧ availableRoomsFor (removeById [bookingU] 1) 1 10 12 1 = 1
    ∧ ¬ ((5 : Int) ≤ 1) := by
  refine ⟨by rfl, by decide, by decide, by decide⟩

/-- C7 amended: only updates that carry a check-in or check-out re-check
anything, and what is re-run is the single-room overlap check
(`checkBookingConflict`, any other overlapping pending/confirmed booking
blocks regardless of room counts or inventory) with the booking itself
excluded; a hit aborts the update before any mutation, otherwise the body
is applied; updates that carry neither date field — room-count changes
included — commit with no re-check at all. -/
theorem updateBooking_spec (s : List Booking) (id : Nat) (u : UpdateBody)
    (b : Booking) (hfind : findBooking s id = some b) :
    ((u.checkIn = none ∧ u.checkOut = none) →
      updateBooking s id u = .ok (replaceById s id (fun x => applyUpdate x u)))
    ∧ ((u.checkIn.isSome ∨ u.checkOut.isSome) →
      (updateBooking s id u = .error "Room is not available for selected dates"
        ↔ ∃ c ∈ s, c.id ≠ id ∧ c.room = b.room ∧ statusActive c.status = true
            ∧ c.checkIn < u.checkOut.getD b.checkOut
            ∧ u.checkIn.getD b.checkIn < c.checkOut)
      ∧ (¬ (∃ c ∈ s, c.id ≠ id ∧ c.room = b.room ∧ statusActive c.status = true
            ∧ c.checkIn < u.checkOut.getD b.checkOut
            ∧ u.checkIn.getD b.checkIn < c.checkOut) →
        updateBooking s id u = .ok (replaceById s id (fun x => applyUpdate x u)))) := by
  have hex : (checkBookingConflict s b.room (u.checkIn.getD b.checkIn)
      (u.checkOut.getD b.checkOut) (some id)).isSome
      ↔ ∃ c ∈ s, c.id ≠ id ∧ c.room = b.room ∧ statusActive c.status = true
          ∧ c.checkIn < u.checkOut.getD b.checkOut
          ∧ u.checkIn.getD b.checkIn < c.checkOut := by
    rw [checkBookingConflict, List.find?_isSome]
    constructor
    · rintro ⟨c, hc, hp⟩
      simp only [Bool.and_eq_true, beq_iff_eq, decide_eq_true_eq, bne_iff_ne] at hp
      obtain ⟨⟨⟨⟨h1, h2⟩, h3⟩, h4⟩, h5⟩ := hp
      exact ⟨c, hc, h5, h1, h2, h3, h4⟩
    · rintro ⟨c, hc, h5, h1, h2, h3, h4⟩
      refine ⟨c, hc, ?_⟩
      simp only [Bool.and_eq_true, beq_iff_eq, decide_eq_true_eq, bne_iff_ne]
      exact ⟨⟨⟨⟨h1, h2⟩, h3⟩, h4⟩, h5⟩
  constructor
  · rintro ⟨hci, hco⟩
    simp [updateBooking, hfind, hci, hco]
  · intro hd
    have hcond : (u.checkIn.isSome || u.checkOut.isSome) = true := by
      rcases hd with h | h <;> simp [h]
    cases hcc : checkBookingConflict s b.room (u.checkIn.getD b.checkIn)
        (u.checkOut.getD b.checkOut) (some id) with
    | some c =>
      have hsome : (checkBookingConflict s b.room (u.checkIn.getD b.checkIn)
          (u.checkOut.getD b.checkOut) (some id)).isSome = true := by
        rw [hcc]; rfl
      constructor
      · simp only [updateBooking, hfind, hcond, if_true, hcc]
        exact ⟨fun _ => hex.mp hsome, fun _ => by trivial⟩
      · intro hne
        exact absurd (hex.mp hsome) hne
    | none =>
      have hnone : (checkBookingConflict s b.room (u.checkIn.getD b.checkIn)
          (u.checkOut.getD b.checkOut) (some id)).isSome = false := by
        rw [hcc]; rfl
      constructor
      · simp only [updateBooking, hfind, hcond, if_true, hcc]
        constructor
        · intro habs
          exact absurd habs (by simp)
        · intro hexx
          exact absurd (hex.mpr hexx) (by rw [hnone]; simp)
      · intro hne
        simp only [updateBooking, hfind, hcond, if_true, hcc]

theorem updateBooking_spec_witness :
    updateBooking [bookingU] 1 roomCountOnlyUpdate
      = .ok (replaceById [bookingU] 1
          (fun x => applyUpdate x roomCountOnlyUpdate)) :=
  (updateBooking_spec [bookingU] 1 roomCountOnlyUpdate bookingU (by rfl)).1
    (by simp [roomCountOnlyUpdate])

/-! ## Claim C1: the inventory invariant under the reservation lifecycle -/

theorem sumRoomsOn_activeFor_cons (rid : Nat) (a : Booking) (t : List Booking)
    (d : Int) :
    sumRoomsOn (activeFor rid (a :: t)) d
      = (if ((a.room == rid && statusActive a.status) && coversB a d) = true
         then roomsBooked a else 0) + sumRoomsOn (activeFor rid t) d := by
  unfold activeFor
  rw [List.filter_cons]
  by_cases hpa : (a.room == rid && statusActive a.status) = true
  · rw [if_pos hpa, sumRoomsOn_cons]
    by_cases hcv : coversB a d = true
    · rw [if_pos hcv, if_pos (by rw [hpa, hcv]; rfl)]
    · rw [if_neg hcv, if_neg (by rw [hpa]; simpa using hcv)]
      omega
  · rw [if_neg hpa,
      if_neg (by intro hcon; exact hpa (Bool.and_eq_true_iff.mp hcon).1)]
    omega

theorem sumRoomsOn_activeFor_removeById_le (s : List Booking) (id rid : Nat)
    (d : Int) :
    sumRoomsOn (activeFor rid (removeById s id)) d
      ≤ sumRoomsOn (activeFor rid s) d := by
  induction s with
  | nil => exact le_refl _
  | cons a t ih =>
    rw [removeById]
    by_cases ha : (a.id == id) = true
    · rw [if_pos ha, sumRoomsOn_activeFor_cons]
      omega
    · rw [if_neg ha, sumRoomsOn_activeFor_cons, sumRoomsOn_activeFor_cons]
      omega

/-- A successful creation preserves the inventory invariant: the admitted
booking raises the occupancy of each day of its window by its room count,
which the admission check bounded by the available inventory. -/
theorem createStep_preserves_inv {pol : Policy} {catalog : List Room}
    {s : List Booking} {nid : Nat} {req : CreateReq} {b : Booking}
    (hinv : InventoryInvariant catalog s)
    (hreq : 1 ≤ req.numberOfRooms)
    (hok : createBookingResult pol catalog s nid req = .ok b) :
    InventoryInvariant catalog (s ++ [b]) := by
  obtain ⟨hb, room, hroom, hadm⟩ := createBookingResult_ok_elim hok
  subst hb
  intro rid r hr d
  have happ : activeFor rid (s ++ [mkBooking nid req])
      = activeFor rid s ++ activeFor rid [mkBooking nid req] := by
    unfold activeFor
    exact List.filter_append _ _
  rw [happ, sumRoomsOn_append]
  by_cases hrid : req.roomId = rid
  · subst hrid
    have hr2 : room = r := by
      rw [hroom] at hr
      exact Option.some.inj hr
    rw [hr2] at hadm
    by_cases hcv : coversB (mkBooking nid req) d = true
    · have hcontrib : sumRoomsOn (activeFor req.roomId [mkBooking nid req]) d
          = req.numberOfRooms := by
        rw [sumRoomsOn_activeFor_cons,
          if_pos (by rw [hcv]; simp [mkBooking, statusActive])]
        have : sumRoomsOn (activeFor req.roomId []) d = 0 := rfl
        rw [this]
        show (if req.numberOfRooms = 0 then 1 else req.numberOfRooms) + 0
          = req.numberOfRooms
        rw [if_neg (by omega)]
        omega
      rw [hcontrib]
      rcases coversB_iff.mp hcv with ⟨h1, h2⟩
      have hfc : sumRoomsOn (activeFor req.roomId s) d
          = sumRoomsOn (fetchOverlapping s req.roomId req.checkIn req.checkOut) d := by
        unfold activeFor fetchOverlapping
        refine (sumRoomsOn_filter_congr ?_).symm
        intro x _ hcx
        rcases coversB_iff.mp hcx with ⟨hx1, hx2⟩
        have e1 : decide (x.checkIn < req.checkOut) = true := by
          simp only [decide_eq_true_eq]
          have : (mkBooking nid req).checkOut = req.checkOut := rfl
          omega
        have e2 : decide (x.checkOut > req.checkIn) = true := by
          simp only [decide_eq_true_eq]
          have : (mkBooking nid req).checkIn = req.checkIn := rfl
          omega
        rw [e1, e2, Bool.and_true, Bool.and_true]
      have hle : sumRoomsOn (fetchOverlapping s req.roomId req.checkIn req.checkOut) d
          ≤ peakOccupancy (fetchOverlapping s req.roomId req.checkIn req.checkOut) :=
        sumRoomsOn_le_peak
      unfold availableRoomsFor at hadm
      rw [hfc]
      omega
    · have hzero : sumRoomsOn (activeFor req.roomId [mkBooking nid req]) d = 0 := by
        rw [sumRoomsOn_activeFor_cons,
          if_neg (by rw [Bool.and_eq_true_iff]; rintro ⟨-, hcc⟩; exact hcv hcc)]
        rfl
      rw [hzero]
      have := hinv req.roomId r hr d
      omega
  · have hzero : sumRoomsOn (activeFor rid [mkBooking nid req]) d = 0 := by
      rw [sumRoomsOn_activeFor_cons,
        if_neg (by
          rw [Bool.and_eq_true_iff]
          rintro ⟨hcc, -⟩
          rw [Bool.and_eq_true_iff] at hcc
          exact hrid (by simpa [mkBooking] using hcc.1))]
      rfl
    rw [hzero]
    have := hinv rid r hr d
    omega

/-- A successful cancellation can only lower occupancy. -/
theorem cancelBooking_preserves_inv {catalog : List Room} {s : List Booking}
    {id : Nat} {now : Int} {uid : Option Nat} {reason : Option String}
    {s2 : List Booking}
    (hinv : InventoryInvariant catalog s)
    (hok : cancelBooking s id now uid reason = .ok s2) :
    InventoryInvariant catalog s2 := by
  unfold cancelBooking at hok
  cases hfind : findBooking s id with
  | none => simp [hfind] at hok
  | some b =>
    simp only [hfind] at hok
    split_ifs at hok with hcb
    all_goals first
      | exact Except.noConfusion hok
      | (obtain rfl := (Except.ok.inj hok)
         intro rid r2 hr d
         rw [activeFor_replace_cancel]
         exact le_trans (sumRoomsOn_activeFor_removeById_le s id rid d)
           (hinv rid r2 hr d))

/-- A successful deletion can only lower occupancy. -/
theorem deleteBooking_preserves_inv {catalog : List Room} {s : List Booking}
    {id : Nat} {s2 : List Booking}
    (hinv : InventoryInvariant catalog s)
    (hok : deleteBooking s id = .ok s2) :
    InventoryInvariant catalog s2 := by
  unfold deleteBooking at hok
  cases hfind : findBooking s id with
  | none => simp [hfind] at hok
  | some b =>
    simp only [hfind] at hok
    obtain rfl := (Except.ok.inj hok)
    intro rid r hr d
    exact le_trans (sumRoomsOn_activeFor_removeById_le s id rid d) (hinv rid r hr d)

/-- The operations of the amended C1 trace: updates are excluded, and
creation requests ask for at least one room (the data-model invariant
`rooms requested ≥ 1`). -/
def OpAllowed : Op → Prop
  | .create req => 1 ≤ req.numberOfRooms
  | .update _ _ => False
  | .cancel _ _ _ _ => True
  | .delete _ => True

theorem stepOp_preserves_inv {pol : Policy} {catalog : List Room}
    {st : List Booking × Nat} {op : Op}
    (hop : OpAllowed op) (hinv : InventoryInvariant catalog st.1) :
    InventoryInvariant catalog (stepOp pol catalog st op).1 := by
  obtain ⟨s, nid⟩ := st
  cases op with
  | create req =>
    show InventoryInvariant catalog
      (match createBookingResult pol catalog s nid req with
       | .ok b => (s ++ [b], nid + 1)
       | .error _ => (s, nid)).1
    cases hok : createBookingResult pol catalog s nid req with
    | ok b => exact createStep_preserves_inv hinv hop hok
    | error e => exact hinv
  | update id u => exact hop.elim
  | cancel id now uid reason =>
    show InventoryInvariant catalog
      (match cancelBooking s id now uid reason with
       | .ok s2 => (s2, nid)
       | .error _ => (s, nid)).1
    cases hok : cancelBooking s id now uid reason with
    | ok s2 => exact cancelBooking_preserves_inv hinv hok
    | error e => exact hinv
  | delete id =>
    show InventoryInvariant catalog
      (match deleteBooking s id with
       | .ok s2 => (s2, nid)
       | .error _ => (s, nid)).1
    cases hok : deleteBooking s id with
    | ok s2 => exact deleteBooking_preserves_inv hinv hok
    | error e => exact hinv

theorem foldl_stepOp_preserves_inv (pol : Policy) (catalog : List Room)
    (ops : List Op) (st : List Booking × Nat)
    (hst : InventoryInvariant catalog st.1)
    (hops : ∀ op ∈ ops, OpAllowed op) :
    InventoryInvariant catalog (ops.foldl (stepOp pol catalog) st).1 := by
  induction ops generalizing st with
  | nil => exact hst
  | cons op t ih =>
    rw [List.foldl_cons]
    exact ih _ (stepOp_preserves_inv (hops op (List.mem_cons_self _ _)) hst)
      (fun x hx => hops x (List.mem_cons_of_mem _ hx))

/-- C1 amended: in every state reachable from the empty store by any
sequence of create, cancel and delete operations whose creation requests
ask for at least one room, the sum of room counts over pending/confirmed
reservations covering any calendar night of any catalogued room type never
exceeds that type's total physical room count.  (The update operation is
excluded: it can violate the invariant, as it re-checks nothing for
room-count changes; concurrency is not modelled — the code serialises
nothing, so the concurrent part of the claim has no code to hold of.) -/
theorem inventoryInvariant_of_runOps (pol : Policy) (catalog : List Room)
    (ops : List Op) (hops : ∀ op ∈ ops, OpAllowed op) :
    InventoryInvariant catalog (runOps pol catalog ops).1 := by
  apply foldl_stepOp_preserves_inv
  · intro rid r hr d
    exact Nat.zero_le _
  · exact hops

theorem inventoryInvariant_of_runOps_witness :
    InventoryInvariant [deluxeRoom]
      (runOps testPolicy [deluxeRoom]
        [Op.create reqA, Op.cancel 0 0 none none, Op.delete 0]).1 :=
  inventoryInvariant_of_runOps testPolicy [deluxeRoom]
    [Op.create reqA, Op.cancel 0 0 none none, Op.delete 0]
    (by
      intro op hop
      simp only [List.mem_cons, List.not_mem_nil, or_false] at hop
      rcases hop with rfl | rfl | rfl
      · show 1 ≤ reqA.numberOfRooms
        decide
      · exact trivial
      · exact trivial)

/-- C1 fails as stated: a state reachable by a create followed by an
update is oversold.  Starting from the empty store with the 2-room
"Deluxe" type, admitting a 1-room booking and then updating its room count
to 5 (a path that performs no admission re-check) leaves night 0 with
occupancy 5 > 2. -/
theorem inventoryInvariant_counterexample :
    findRoom [deluxeRoom] 1 = some deluxeRoom
    ∧ deluxeRoom.totalRooms = 2
    ∧ sumRoomsOn (activeFor 1 (runOps testPolicy [deluxeRoom]
        [Op.create reqA, Op.update 0 roomCountOnlyUpdate]).1) 0 = 5 := by
  refine ⟨by rfl, by rfl, by rfl⟩

theorem createBookingResult_order_witness :
    (createBookingResult testPolicy [deluxeRoom] [] 0 reqA = .error .roomUnavailable
      ↔ deluxeRoom.isAvailable = false)
    ∧ (createBookingResult testPolicy [deluxeRoom] [] 0 reqA = .error .capacityExceeded
      ↔ deluxeRoom.isAvailable = true
        ∧ validateGuestCapacityByRoomType testPolicy reqA.guests deluxeRoom.name = false)
    ∧ (createBookingResult testPolicy [deluxeRoom] [] 0 reqA = .error .roomCountInvalid
      ↔ deluxeRoom.isAvailable = true
        ∧ validateGuestCapacityByRoomType testPolicy reqA.guests deluxeRoom.name = true
        ∧ validateNumberOfRoomsByType testPolicy reqA.numberOfRooms deluxeRoom.name
            = false)
    ∧ (createBookingResult testPolicy [deluxeRoom] [] 0 reqA = .error .insufficientRooms
      ↔ deluxeRoom.isAvailable = true
        ∧ validateGuestCapacityByRoomType testPolicy reqA.guests deluxeRoom.name = true
        ∧ validateNumberOfRoomsByType testPolicy reqA.numberOfRooms deluxeRoom.name
            = true
        ∧ reqA.numberOfRooms < requiredRoomsFor reqA.guests)
    ∧ (createBookingResult testPolicy [deluxeRoom] [] 0 reqA = .error .exceedsMaxRooms
      ↔ deluxeRoom.isAvailable = true
        ∧ validateGuestCapacityByRoomType testPolicy reqA.guests deluxeRoom.name = true
        ∧ validateNumberOfRoomsByType testPolicy reqA.numberOfRooms deluxeRoom.name
            = true
        ∧ ¬ reqA.numberOfRooms < requiredRoomsFor reqA.guests
        ∧ (match testPolicy.maxRoomsForType deluxeRoom.name with
           | some m => m ≠ 0 && reqA.numberOfRooms > m
           | none => false) = true)
    ∧ (createBookingResult testPolicy [deluxeRoom] [] 0 reqA = .error .conflict
      ↔ deluxeRoom.isAvailable = true
        ∧ validateGuestCapacityByRoomType testPolicy reqA.guests deluxeRoom.name = true
        ∧ validateNumberOfRoomsByType testPolicy reqA.numberOfRooms deluxeRoom.name
            = true
        ∧ ¬ reqA.numberOfRooms < requiredRoomsFor reqA.guests
        ∧ (match testPolicy.maxRoomsForType deluxeRoom.name with
           | some m => m ≠ 0 && reqA.numberOfRooms > m
           | none => false) = false
        ∧ availableRoomsFor [] reqA.roomId reqA.checkIn reqA.checkOut
            deluxeRoom.totalRooms < (reqA.numberOfRooms : Int))
    ∧ (createBookingResult testPolicy [deluxeRoom] [] 0 reqA = .ok (mkBooking 0 reqA)
      ↔ deluxeRoom.isAvailable = true
        ∧ validateGuestCapacityByRoomType testPolicy reqA.guests deluxeRoom.name = true
        ∧ validateNumberOfRoomsByType testPolicy reqA.numberOfRooms deluxeRoom.name
            = true
        ∧ ¬ reqA.numberOfRooms < requiredRoomsFor reqA.guests
        ∧ (match testPolicy.maxRoomsForType deluxeRoom.name with
           | some m => m ≠ 0 && reqA.numberOfRooms > m
           | none => false) = false
        ∧ ¬ availableRoomsFor [] reqA.roomId reqA.checkIn reqA.checkOut
            deluxeRoom.totalRooms < (reqA.numberOfRooms : Int)) :=
  (createBookingResult_order testPolicy [deluxeRoom] [] 0 reqA).2.2.2.2.2
    deluxeRoom rfl rfl rfl rfl rfl

end HomeStay
